import Mathlib

/-
Verification of the trading-simulator arithmetic of jpwyse/bitsofstock_sandbox.

The embedding models the frontend calculation helpers
(src/frontend/src/utils/calculations.js), the currency formatters
(formatCurrency and formatCurrencyWithSign of the formatters module), the
trade-modal submission and auto-calculation logic
(src/frontend/src/components/news/NewsCard.js), and the allocation chart
percentage computation (src/frontend/src/components/PortfolioAllocationChart.js).

JavaScript numbers are modelled as rationals; values that may be a number,
a numeric string, or null are modelled by JSValue, and results of unguarded
JavaScript division (which may be Infinity or NaN) by JSNum. Form fields
holding either the empty string or a numeric string are modelled as
Option values carrying the parsed number.

The Django backend (the Trade Executor and Portfolio Aggregator of the
specification) is not part of the repository snapshot; the definitions
executeBuy and summarize below are modelled from the specification, as their
doc comments state, reusing the frontend calculation helpers where the
specification names the same formulas.
-/

namespace BitsOfStock

/-- The calculateGainLoss helper of src/frontend/src/utils/calculations.js.
JS: if (!costBasis || costBasis === 0) return 0; return currentValue - costBasis.
For a finite numeric argument the falsiness test coincides with equality to 0. -/
def calculateGainLoss (currentValue costBasis : ℚ) : ℚ :=
  if costBasis = 0 then 0 else currentValue - costBasis

/-- The calculateGainLossPercentage helper of calculations.js.
JS: if (!costBasis || costBasis === 0) return 0;
return ((currentValue - costBasis) / costBasis) * 100. -/
def calculateGainLossPercentage (currentValue costBasis : ℚ) : ℚ :=
  if costBasis = 0 then 0 else (currentValue - costBasis) / costBasis * 100

/-- The calculateAllocation helper of calculations.js.
JS: if (!totalPortfolioValue || totalPortfolioValue === 0) return 0;
return (holdingValue / totalPortfolioValue) * 100.
The guard is modelled with an Option argument: none stands for a null or
undefined total, and the numeric falsiness test is equality to 0. -/
def calculateAllocation (holdingValue : ℚ) (totalPortfolioValue : Option ℚ) : ℚ :=
  match totalPortfolioValue with
  | none => 0
  | some t => if t = 0 then 0 else holdingValue / t * 100

/-- The calculateAveragePrice helper of calculations.js.
JS: if (!quantity || quantity === 0) return 0; return totalCost / quantity. -/
def calculateAveragePrice (totalCost quantity : ℚ) : ℚ :=
  if quantity = 0 then 0 else totalCost / quantity

/-- The calculateTradeAmount helper of calculations.js: price * quantity. -/
def calculateTradeAmount (price quantity : ℚ) : ℚ :=
  price * quantity

/-- The calculateQuantityFromAmount helper of calculations.js.
JS: if (!price || price === 0) return 0; return amount / price.
The guard is modelled with an Option argument: none stands for a null or
undefined price. -/
def calculateQuantityFromAmount (amount : ℚ) (price : Option ℚ) : ℚ :=
  match price with
  | none => 0
  | some p => if p = 0 then 0 else amount / p

/-- A JavaScript value as it reaches the chart and modal components from the
REST API: a finite number, a non-empty numeric string (the backend serializes
decimal fields as strings, see the mock API fixtures), or null/undefined. -/
inductive JSValue where
  | num (v : ℚ)
  | str (v : ℚ)
  | nullv
deriving DecidableEq

/-- JavaScript truthiness of a JSValue: a finite number is truthy when
nonzero; a non-empty string is always truthy (including a string such as
a zero written as text); null and undefined are falsy. -/
def truthy : JSValue → Bool
  | .num v => decide (v ≠ 0)
  | .str _ => true
  | .nullv => false

/-- The result of a JavaScript arithmetic expression: NaN, positive or
negative Infinity, or a finite value. -/
inductive JSNum where
  | nan
  | inf
  | ninf
  | fin (v : ℚ)
deriving DecidableEq

/-- parseFloat as applied to a JSValue: numbers and numeric strings yield
their value; parseFloat of null or undefined yields NaN. -/
def parseF : JSValue → JSNum
  | .num v => .fin v
  | .str v => .fin v
  | .nullv => .nan

/-- JavaScript division on JSNum values, following IEEE-754 semantics
restricted to this model (no negative zero): division by finite zero yields
Infinity with the sign of the dividend, or NaN for zero over zero. -/
def jsDiv : JSNum → JSNum → JSNum
  | .nan, _ => .nan
  | _, .nan => .nan
  | .inf, .inf => .nan
  | .inf, .ninf => .nan
  | .ninf, .inf => .nan
  | .ninf, .ninf => .nan
  | .inf, .fin b => if 0 ≤ b then .inf else .ninf
  | .ninf, .fin b => if 0 ≤ b then .ninf else .inf
  | .fin _, .inf => .fin 0
  | .fin _, .ninf => .fin 0
  | .fin a, .fin b =>
    if b = 0 then (if a = 0 then .nan else if 0 < a then .inf else .ninf)
    else .fin (a / b)

/-- JavaScript multiplication of a JSNum by the positive constant 100. -/
def jsMul100 : JSNum → JSNum
  | .nan => .nan
  | .inf => .inf
  | .ninf => .ninf
  | .fin v => .fin (v * 100)

/-- The percentage computation of the chartData mapping in
src/frontend/src/components/PortfolioAllocationChart.js:
percentage is (parseFloat(holding.current_value) divided by
parseFloat(portfolio.total_portfolio_value)) * 100 when
portfolio.total_portfolio_value is truthy, and 0 otherwise. -/
def chartPercentage (total currentValue : JSValue) : JSNum :=
  if truthy total then jsMul100 (jsDiv (parseF currentValue) (parseF total)) else .fin 0

/-- JavaScript falsiness of the parsed form-field value
(usdAmount or quantity is the empty string, or parses to 0), as tested by
the submission handlers in src/frontend/src/components/news/NewsCard.js:
usdValue is null when the field is empty, and the not operator on the
number treats 0 as falsy. -/
def jsFalsy (v : Option ℚ) : Prop := v.getD 0 = 0

instance (v : Option ℚ) : Decidable (jsFalsy v) := by
  unfold jsFalsy
  infer_instance

/-- Trade direction selected in the modal. -/
inductive TradeType where
  | buy
  | sell
deriving DecidableEq

/-- The observable outcome of the TradeModalAllCryptos submission handler:
either a client-side validation error with its message and no API request,
or a trade request POSTed with the given payload. -/
inductive SubmitResult where
  | validationError (msg : String)
  | request (t : TradeType) (amountUsd quantity : Option ℚ)
deriving DecidableEq

/-- The handleSubmit function of TradeModalAllCryptos in
src/frontend/src/components/news/NewsCard.js: if no cryptocurrency is
selected it shows an error; the parsed values usdValue and quantityValue
are null for empty fields; if both are falsy it shows an error and issues
no request; otherwise it calls executeBuy or executeSell with both values. -/
def handleSubmitAllCryptos (hasSelected : Bool) (tradeType : TradeType)
    (usdAmount quantity : Option ℚ) : SubmitResult :=
  if hasSelected then
    if jsFalsy usdAmount ∧ jsFalsy quantity then
      .validationError "Please enter an amount or quantity"
    else
      .request tradeType usdAmount quantity
  else
    .validationError "Please select a cryptocurrency"

/-- Which form field the user edited last, selecting the direction of the
auto-calculation effect. -/
inductive InputMode where
  | usd
  | quantity
deriving DecidableEq

/-- The auto-calculation effect of the trade modals in
src/frontend/src/components/news/NewsCard.js: if the current price is
falsy nothing changes; in usd mode with a non-empty usd field the quantity
field is set to usdAmount / currentPrice; in quantity mode with a non-empty
quantity field the usd field is set to quantity * currentPrice.
The price is modelled as a finite number (none for a missing price). -/
def autoCalcEffect (currentPrice : Option ℚ) (mode : InputMode)
    (usdAmount quantity : Option ℚ) : Option ℚ × Option ℚ :=
  match currentPrice with
  | none => (usdAmount, quantity)
  | some p =>
    if p = 0 then (usdAmount, quantity)
    else
      match mode, usdAmount, quantity with
      | .usd, some u, _ => (some u, some (u / p))
      | .usd, none, q => (none, q)
      | .quantity, _, some q => (some (q * p), some q)
      | .quantity, u, none => (u, none)

/-- An account: cash balance and the fixed initial investment. -/
structure Account where
  cash_balance : ℚ
  initial_investment : ℚ

/-- A position: held quantity and weighted-average cost per unit. -/
structure Position where
  quantity : ℚ
  average_cost : ℚ

/-- The error taxonomy of the trade executor. -/
inductive TradeError where
  | invalidRequest
  | assetNotFound
  | invalidPrice
  | insufficientFunds
  | noPosition
  | insufficientHoldings
deriving DecidableEq

/-- The successful outcome of a buy: the updated account and position and
the fields of the appended transaction record. -/
structure BuyResult where
  account : Account
  position : Position
  txQuantity : ℚ
  txPricePerUnit : ℚ
  txTotalAmount : ℚ

/-- Modelled from the spec: the backend Trade Executor (the Django trading
service executing ExecuteBuy) is not under src/; only its e2e tests and its
frontend callers are. Following specification section 4.1 with the executed
quantity already resolved: the price must be positive (InvalidPrice
otherwise), the quantity positive (InvalidRequest otherwise), the executed
amount is execQuantity * price via the source helper calculateTradeAmount,
the buy fails with InsufficientFunds when the amount exceeds the cash
balance (no partial fill, and the error result carries no mutated state),
and on success cash decreases by the amount while the position is created
at the current price or updated to the quantity-weighted average cost,
the division performed by the source helper calculateAveragePrice. -/
def executeBuy (acct : Account) (price : ℚ) (prior : Option Position)
    (execQuantity : ℚ) : Except TradeError BuyResult :=
  if price ≤ 0 then .error .invalidPrice
  else if execQuantity ≤ 0 then .error .invalidRequest
  else if acct.cash_balance < calculateTradeAmount price execQuantity then
    .error .insufficientFunds
  else
    .ok
      { account :=
          { cash_balance := acct.cash_balance - calculateTradeAmount price execQuantity
          , initial_investment := acct.initial_investment }
      , position :=
          match prior with
          | none => { quantity := execQuantity, average_cost := price }
          | some p =>
            { quantity := p.quantity + execQuantity
            , average_cost :=
                calculateAveragePrice
                  (p.quantity * p.average_cost + execQuantity * price)
                  (p.quantity + execQuantity) }
      , txQuantity := execQuantity
      , txPricePerUnit := price
      , txTotalAmount := calculateTradeAmount price execQuantity }

/-- A position marked to market: held quantity and current price. -/
structure HoldingMark where
  quantity : ℚ
  price : ℚ

/-- Total mark-to-market value of a list of holdings. -/
def totalHoldingsValue (hs : List HoldingMark) : ℚ :=
  (hs.map fun h => h.quantity * h.price).sum

/-- The summary figures of the Portfolio Aggregator. -/
structure Summary where
  totalPortfolioValue : ℚ
  totalGainLoss : ℚ
  totalGainLossPercentage : ℚ

/-- Modelled from the spec: the backend Portfolio Aggregator (Summarize) is
not under src/. Following specification section 4.2, the total portfolio
value is cash plus the summed mark-to-market value of the positions; the
gain-loss and percentage figures are computed by the source helpers
calculateGainLoss and calculateGainLossPercentage of calculations.js, the
repository code the claims cite for these formulas. -/
def summarize (acct : Account) (hs : List HoldingMark) : Summary :=
  { totalPortfolioValue := acct.cash_balance + totalHoldingsValue hs
  , totalGainLoss :=
      calculateGainLoss (acct.cash_balance + totalHoldingsValue hs)
        acct.initial_investment
  , totalGainLossPercentage :=
      calculateGainLossPercentage (acct.cash_balance + totalHoldingsValue hs)
        acct.initial_investment }

/-- Digits of a natural number, least significant first, with a comma
inserted after every third digit; k counts digits emitted since the last
comma. -/
def commifyAux : List Char → ℕ → List Char
  | [], _ => []
  | c :: rest, k =>
    if k = 3 then ',' :: c :: commifyAux rest 1
    else c :: commifyAux rest (k + 1)

/-- Decimal rendering of a natural number with en-US thousand grouping,
as produced by Intl.NumberFormat for the integer part. -/
def natGrouped (n : ℕ) : String :=
  String.mk ((commifyAux (Nat.toDigits 10 n).reverse 0).reverse)

/-- Two-digit rendering of the cents part (values 0 to 99). -/
def twoDigits (n : ℕ) : String :=
  if n < 10 then "0" ++ Nat.repr n else Nat.repr n

/-- The absolute value in cents, rounded to the nearest integer with ties
away from zero, the default rounding of Intl.NumberFormat at two fraction
digits. -/
def centsOf (v : ℚ) : ℤ :=
  ⌊|v| * 100 + 1 / 2⌋

/-- The grouped dollars-and-cents digits of the magnitude of a value. -/
def moneyDigits (v : ℚ) : String :=
  natGrouped (centsOf v / 100).toNat ++ "." ++ twoDigits ((centsOf v) % 100).toNat

/-- The formatCurrency helper of the formatters module: null or undefined
yields the literal string shown for zero dollars; otherwise the value is
rendered by Intl.NumberFormat en-US USD with two fraction digits, a leading
minus sign for negative values. The decimals parameter is modelled at its
default of 2; a numeric-string argument is modelled by its parsed value. -/
def formatCurrency : Option ℚ → String
  | none => "$0.00"
  | some v => (if v < 0 then "-" else "") ++ "$" ++ moneyDigits v

/-- The formatCurrencyWithSign helper of the formatters module: null or
undefined yields the zero-dollar string; otherwise the magnitude is
formatted by formatCurrency and a plus sign is prepended for positive
values, a minus sign for negative values, and nothing for zero. -/
def formatCurrencyWithSign : Option ℚ → String
  | none => "$0.00"
  | some v =>
    if 0 < v then "+" ++ formatCurrency (some |v|)
    else if v < 0 then "-" ++ formatCurrency (some |v|)
    else formatCurrency (some |v|)

/-- The sign mark the claim describes for formatCurrencyWithSign. -/
def signOf (v : ℚ) : String :=
  if 0 < v then "+" else if v < 0 then "-" else ""

end BitsOfStock

namespace BitsOfStock

/-- Claim C1 counterexample: with both the usd amount and the quantity
provided and positive, the submission handler issues the trade request
instead of failing client-side, refuting the exactly-one-of rule. -/
theorem claim_C1_counterexample :
    handleSubmitAllCryptos true TradeType.buy (some 100) (some 2) =
      SubmitResult.request TradeType.buy (some 100) (some 2) := by
  norm_num [handleSubmitAllCryptos, jsFalsy]

/-- Claim C1 (amended): the submission handler fails with a client-side
error and issues no trade request exactly when both parsed values are falsy
(absent or zero); in every other case, including both values provided, it
issues the request forwarding both values. -/
theorem claim_C1_amended_submit (t : TradeType) (usd qty : Option ℚ) :
    (jsFalsy usd ∧ jsFalsy qty →
      handleSubmitAllCryptos true t usd qty =
        SubmitResult.validationError "Please enter an amount or quantity") ∧
    (¬(jsFalsy usd ∧ jsFalsy qty) →
      handleSubmitAllCryptos true t usd qty = SubmitResult.request t usd qty) := by
  constructor
  · intro h
    simp [handleSubmitAllCryptos, h]
  · intro h
    simp [handleSubmitAllCryptos, h]

/-- Claim C1 witness: with neither value provided the handler shows the
validation error and issues no request. -/
theorem claim_C1_witness :
    handleSubmitAllCryptos true TradeType.sell none none =
      SubmitResult.validationError "Please enter an amount or quantity" :=
  (claim_C1_amended_submit TradeType.sell none none).1 ⟨rfl, rfl⟩

/-- Claim C3: a buy against an existing position yields the quantity-weighted
average cost (oldQuantity * oldAvgCost + execQuantity * price) divided by the
combined quantity, the position quantity grows by the executed quantity, and
the resulting average cost equals total cost paid divided by total quantity. -/
theorem claim_C3_weighted_average (acct : Account) (price oldQ oldAvg execQ : ℚ)
    (hold : 0 < oldQ) (hexec : 0 < execQ) (hprice : 0 < price)
    (hfunds : calculateTradeAmount price execQ ≤ acct.cash_balance) :
    ∃ r, executeBuy acct price (some ⟨oldQ, oldAvg⟩) execQ = Except.ok r ∧
      r.position.quantity = oldQ + execQ ∧
      r.position.average_cost = (oldQ * oldAvg + execQ * price) / (oldQ + execQ) ∧
      r.position.average_cost = (oldQ * oldAvg + execQ * price) / r.position.quantity := by
  have hsum : oldQ + execQ ≠ 0 := by positivity
  have h1 : ¬ price ≤ 0 := not_le.mpr hprice
  have h2 : ¬ execQ ≤ 0 := not_le.mpr hexec
  have h3 : ¬ acct.cash_balance < calculateTradeAmount price execQ := not_lt.mpr hfunds
  have hok : executeBuy acct price (some ⟨oldQ, oldAvg⟩) execQ = Except.ok
      { account :=
          { cash_balance := acct.cash_balance - calculateTradeAmount price execQ
          , initial_investment := acct.initial_investment }
      , position :=
          { quantity := oldQ + execQ
          , average_cost :=
              calculateAveragePrice (oldQ * oldAvg + execQ * price) (oldQ + execQ) }
      , txQuantity := execQ
      , txPricePerUnit := price
      , txTotalAmount := calculateTradeAmount price execQ } := by
    unfold executeBuy
    rw [if_neg h1, if_neg h2, if_neg h3]
  exact ⟨_, hok, rfl, by simp [calculateAveragePrice, hsum],
    by simp [calculateAveragePrice, hsum]⟩

/-- Claim C3 witness: buying 0.1 units at price 60000 into a position of
0.1 units at average cost 50000 yields quantity 0.2 and average cost 55000
computed as the weighted average. -/
theorem claim_C3_witness :
    ∃ r, executeBuy ⟨10000, 10000⟩ 60000 (some ⟨1/10, 50000⟩) (1/10) = Except.ok r ∧
      r.position.quantity = 1/10 + 1/10 ∧
      r.position.average_cost = (1/10 * 50000 + 1/10 * 60000) / (1/10 + 1/10) ∧
      r.position.average_cost = (1/10 * 50000 + 1/10 * 60000) / r.position.quantity :=
  claim_C3_weighted_average ⟨10000, 10000⟩ 60000 (1/10) 50000 (1/10)
    (by norm_num) (by norm_num) (by norm_num)
    (by norm_num [calculateTradeAmount])

/-- Claim C4: the percentage-return helper returns 0 when the cost basis
(initial investment) is zero and otherwise returns the gain-loss divided by
the cost basis, times 100. -/
theorem claim_C4_percentage_guarded (v c : ℚ) :
    (c = 0 → calculateGainLossPercentage v c = 0) ∧
    (c ≠ 0 → calculateGainLossPercentage v c = (v - c) / c * 100) ∧
    (c ≠ 0 → calculateGainLossPercentage v c = calculateGainLoss v c / c * 100) := by
  refine ⟨fun h => by simp [calculateGainLossPercentage, h],
          fun h => by simp [calculateGainLossPercentage, h],
          fun h => by simp [calculateGainLossPercentage, calculateGainLoss, h]⟩

/-- Claim C4 witness: at value 3000 and cost basis 10000 the percentage is
the quotient times 100. -/
theorem claim_C4_witness :
    calculateGainLossPercentage 3000 10000 = (3000 - 10000) / 10000 * 100 :=
  (claim_C4_percentage_guarded 3000 10000).2.1 (by norm_num)

/-- Claim C5 counterexample: on an account with portfolio value 3000 and
initial investment 0 the computed total gain-loss is 0, not the 3000 that
the general clause (current value minus initial investment) demands. -/
theorem claim_C5_counterexample :
    (summarize ⟨3000, 0⟩ []).totalPortfolioValue = 3000 ∧
    (summarize ⟨3000, 0⟩ []).totalGainLoss = 0 ∧
    (3000 : ℚ) - 0 ≠ 0 := by
  refine ⟨?_, ?_, by norm_num⟩ <;>
    simp [summarize, totalHoldingsValue, calculateGainLoss]

/-- Claim C5 (amended): the scenario holds exactly (portfolio value 3000,
gain-loss -7000, percentage -70), and the total gain-loss equals the total
portfolio value minus the initial investment for every account whose initial
investment is nonzero; when it is zero the code returns 0 instead. -/
theorem claim_C5_amended_summary :
    (summarize ⟨1000, 10000⟩ [⟨1, 2000⟩]).totalPortfolioValue = 3000 ∧
    (summarize ⟨1000, 10000⟩ [⟨1, 2000⟩]).totalGainLoss = -7000 ∧
    (summarize ⟨1000, 10000⟩ [⟨1, 2000⟩]).totalGainLossPercentage = -70 ∧
    ∀ (acct : Account) (hs : List HoldingMark), acct.initial_investment ≠ 0 →
      (summarize acct hs).totalGainLoss =
        (summarize acct hs).totalPortfolioValue - acct.initial_investment := by
  refine ⟨?_, ?_, ?_, fun acct hs h => ?_⟩
  · norm_num [summarize, totalHoldingsValue]
  · norm_num [summarize, totalHoldingsValue, calculateGainLoss]
  · norm_num [summarize, totalHoldingsValue, calculateGainLossPercentage]
  · simp [summarize, calculateGainLoss, h]

/-- Claim C5 witness: with nonzero initial investment 10000 the gain-loss
equals portfolio value minus initial investment. -/
theorem claim_C5_witness :
    (summarize ⟨1000, 10000⟩ []).totalGainLoss =
      (summarize ⟨1000, 10000⟩ []).totalPortfolioValue - 10000 :=
  claim_C5_amended_summary.2.2.2 ⟨1000, 10000⟩ [] (by norm_num)

/-- Claim C6: with a nonzero current price, entering the usd amount makes
the auto-calculation effect resolve the quantity as amount divided by
price (the formula of calculateQuantityFromAmount), and entering the
quantity makes it resolve the usd amount as quantity times price (the
formula of calculateTradeAmount). -/
theorem claim_C6_quantity_resolution (p u q : ℚ) (hp : p ≠ 0) :
    autoCalcEffect (some p) InputMode.usd (some u) (some q) = (some u, some (u / p)) ∧
    autoCalcEffect (some p) InputMode.usd (some u) none = (some u, some (u / p)) ∧
    autoCalcEffect (some p) InputMode.quantity (some u) (some q) = (some (q * p), some q) ∧
    autoCalcEffect (some p) InputMode.quantity none (some q) = (some (q * p), some q) ∧
    calculateQuantityFromAmount u (some p) = u / p ∧
    calculateTradeAmount p q = p * q := by
  refine ⟨?_, ?_, ?_, ?_, ?_, rfl⟩ <;>
    simp [autoCalcEffect, calculateQuantityFromAmount, hp]

/-- Claim C6 witness: 5000 usd at price 50000 resolves to quantity
5000 / 50000. -/
theorem claim_C6_witness :
    autoCalcEffect (some 50000) InputMode.usd (some 5000) none =
      (some 5000, some (5000 / 50000)) :=
  (claim_C6_quantity_resolution 50000 5000 0 (by norm_num)).2.1

/-- Claim C7 counterexample: at price 0 the quantity helper produces the
numeric result 0 rather than failing with InvalidPrice. -/
theorem claim_C7_counterexample :
    calculateQuantityFromAmount 100 (some 0) = 0 := by
  simp [calculateQuantityFromAmount]

/-- Claim C7 (amended): a missing or zero price makes the quantity helper
return the numeric guard value 0, and a negative price yields the numeric
quotient amount divided by price; no InvalidPrice failure occurs in the
repository code. -/
theorem claim_C7_amended_price_guard (a p : ℚ) :
    calculateQuantityFromAmount a none = 0 ∧
    calculateQuantityFromAmount a (some 0) = 0 ∧
    (p ≠ 0 → calculateQuantityFromAmount a (some p) = a / p) := by
  refine ⟨rfl, by simp [calculateQuantityFromAmount], fun h => by
    simp [calculateQuantityFromAmount, h]⟩

/-- Claim C7 witness: at the negative price -50 the helper returns the
numeric quotient. -/
theorem claim_C7_witness :
    calculateQuantityFromAmount 100 (some (-50)) = 100 / (-50) :=
  (claim_C7_amended_price_guard 100 (-50)).2.2 (by norm_num)

/-- Claim C8: with a valid positive price and quantity, a buy whose executed
amount exceeds the cash balance fails with InsufficientFunds (the error
result carries no mutated state), and every successful buy debits exactly
the transaction amount and leaves the cash balance non-negative. -/
theorem claim_C8_cash_nonneg (acct : Account) (price execQ : ℚ) (prior : Option Position)
    (hcash : 0 ≤ acct.cash_balance) (hprice : 0 < price) (hexec : 0 < execQ) :
    (acct.cash_balance < calculateTradeAmount price execQ →
      executeBuy acct price prior execQ = Except.error TradeError.insufficientFunds) ∧
    (∀ r, executeBuy acct price prior execQ = Except.ok r →
      r.txTotalAmount = calculateTradeAmount price execQ ∧
      r.account.cash_balance = acct.cash_balance - r.txTotalAmount ∧
      0 ≤ r.account.cash_balance) := by
  have h1 : ¬ price ≤ 0 := not_le.mpr hprice
  have h2 : ¬ execQ ≤ 0 := not_le.mpr hexec
  constructor
  · intro hlt
    unfold executeBuy
    rw [if_neg h1, if_neg h2, if_pos hlt]
  · intro r hr
    by_cases hlt : acct.cash_balance < calculateTradeAmount price execQ
    · unfold executeBuy at hr
      rw [if_neg h1, if_neg h2, if_pos hlt] at hr
      exact absurd hr (by simp)
    · unfold executeBuy at hr
      rw [if_neg h1, if_neg h2, if_neg hlt] at hr
      have hreq := Except.ok.inj hr
      subst hreq
      refine ⟨rfl, rfl, ?_⟩
      simp only
      linarith [not_lt.mp hlt]

/-- Claim C8 witness: the spec scenario of a 6000 buy against a 5000 cash
balance (0.1 units at price 60000) fails with InsufficientFunds. -/
theorem claim_C8_witness :
    executeBuy ⟨5000, 10000⟩ 60000 (some ⟨1/10, 50000⟩) (1/10) =
      Except.error TradeError.insufficientFunds :=
  (claim_C8_cash_nonneg ⟨5000, 10000⟩ 60000 (1/10) (some ⟨1/10, 50000⟩)
      (by norm_num) (by norm_num) (by norm_num)).1
    (by norm_num [calculateTradeAmount])

/-- Claim C9 counterexample: the allocation chart guard is JavaScript
truthiness of the raw serialized total, so a string-typed zero total is
truthy and the division by its parsed value 0 yields Infinity, not the
guarded 0. -/
theorem claim_C9_counterexample :
    chartPercentage (JSValue.str 0) (JSValue.str 2000) = JSNum.inf := by
  norm_num [chartPercentage, truthy, parseF, jsDiv, jsMul100]

/-- Claim C9 (amended): calculateAllocation returns 0 for a missing or zero
total and otherwise the holding value divided by the total, times 100; the
chart computation agrees for missing or number-typed totals, but for a
string-typed zero total (as the API serializes decimals) the truthiness
guard passes and the division yields Infinity. -/
theorem claim_C9_amended_allocation (h t : ℚ) :
    calculateAllocation h none = 0 ∧
    calculateAllocation h (some 0) = 0 ∧
    (t ≠ 0 → calculateAllocation h (some t) = h / t * 100) ∧
    chartPercentage JSValue.nullv (JSValue.num h) = JSNum.fin 0 ∧
    chartPercentage (JSValue.num 0) (JSValue.num h) = JSNum.fin 0 ∧
    (t ≠ 0 → chartPercentage (JSValue.num t) (JSValue.num h) = JSNum.fin (h / t * 100)) ∧
    (0 < h → chartPercentage (JSValue.str 0) (JSValue.str h) = JSNum.inf) := by
  refine ⟨rfl, by simp [calculateAllocation],
    fun ht => by simp [calculateAllocation, ht],
    by simp [chartPercentage, truthy],
    by simp [chartPercentage, truthy],
    fun ht => by simp [chartPercentage, truthy, parseF, jsDiv, jsMul100, ht],
    fun hh => by
      simp [chartPercentage, truthy, parseF, jsDiv, jsMul100, hh, ne_of_gt hh]⟩

/-- Claim C9 witness: a 500 holding in a 2000 total allocates 25 percent,
while the chart on a string-typed zero total yields Infinity. -/
theorem claim_C9_witness :
    calculateAllocation 500 (some 2000) = 500 / 2000 * 100 ∧
    chartPercentage (JSValue.str 0) (JSValue.str 500) = JSNum.inf :=
  ⟨(claim_C9_amended_allocation 500 2000).2.2.1 (by norm_num),
   (claim_C9_amended_allocation 500 2000).2.2.2.2.2.2 (by norm_num)⟩

/-- The formatted magnitude of a non-negative value begins with the dollar
sign, so a formatted magnitude never begins with a plus or minus mark. -/
theorem formatCurrency_head_nonneg (v : ℚ) (h : 0 ≤ v) :
    (formatCurrency (some v)).data.head? = some '$' := by
  simp only [formatCurrency, if_neg (not_lt.mpr h)]
  rfl

/-- The formatted absolute value of any value begins with the dollar sign. -/
theorem formatCurrency_abs_head (v : ℚ) :
    (formatCurrency (some |v|)).data.head? = some '$' :=
  formatCurrency_head_nonneg |v| (abs_nonneg v)

/-- Claim C10: formatCurrencyWithSign maps null or undefined to the
zero-dollar string, renders every numeric value as the formatted magnitude
preceded by the sign mark (plus for positive, minus for negative, nothing
for zero), and its output begins with a plus exactly when the value is
positive and with a minus exactly when the value is negative. -/
theorem claim_C10_sign_format :
    formatCurrencyWithSign none = "$0.00" ∧
    (formatCurrencyWithSign (some 0)).data.head? = some '$' ∧
    ∀ v : ℚ,
      formatCurrencyWithSign (some v) = signOf v ++ formatCurrency (some |v|) ∧
      ((formatCurrencyWithSign (some v)).data.head? = some '+' ↔ 0 < v) ∧
      ((formatCurrencyWithSign (some v)).data.head? = some '-' ↔ v < 0) := by
  refine ⟨rfl, ?_, fun v => ?_⟩
  · have h0 : ¬ (0:ℚ) < 0 := lt_irrefl 0
    simp only [formatCurrencyWithSign, if_neg h0]
    simpa using formatCurrency_abs_head 0
  · rcases lt_trichotomy v 0 with hneg | hz | hpos
    · have h1 : ¬ 0 < v := not_lt.mpr hneg.le
      refine ⟨?_, ?_, ?_⟩
      · simp only [formatCurrencyWithSign, signOf, if_neg h1, if_pos hneg]
      · simp only [formatCurrencyWithSign, if_neg h1, if_pos hneg]
        constructor
        · intro hh
          have hd : ("-" ++ formatCurrency (some |v|)).data =
              '-' :: (formatCurrency (some |v|)).data := rfl
          rw [hd] at hh
          simp at hh
        · intro hh
          exact absurd hh h1
      · simp only [formatCurrencyWithSign, if_neg h1, if_pos hneg]
        constructor
        · intro _
          exact hneg
        · intro _
          rfl
    · subst hz
      have h0 : ¬ (0:ℚ) < 0 := lt_irrefl 0
      refine ⟨?_, ?_, ?_⟩
      · simp only [formatCurrencyWithSign, signOf, if_neg h0]
        rfl
      · simp only [formatCurrencyWithSign, if_neg h0]
        rw [formatCurrency_abs_head 0]
        constructor
        · intro hh
          exact absurd (Option.some.inj hh) (by decide)
        · intro hh
          exact absurd hh h0
      · simp only [formatCurrencyWithSign, if_neg h0]
        rw [formatCurrency_abs_head 0]
        constructor
        · intro hh
          exact absurd (Option.some.inj hh) (by decide)
        · intro hh
          exact absurd hh h0
    · refine ⟨?_, ?_, ?_⟩
      · simp only [formatCurrencyWithSign, signOf, if_pos hpos]
      · simp only [formatCurrencyWithSign, if_pos hpos]
        constructor
        · intro _
          exact hpos
        · intro _
          rfl
      · simp only [formatCurrencyWithSign, if_pos hpos]
        constructor
        · intro hh
          have hd : ("+" ++ formatCurrency (some |v|)).data =
              '+' :: (formatCurrency (some |v|)).data := rfl
          rw [hd] at hh
          simp at hh
        · intro hh
          exact absurd hpos (not_lt.mpr hh.le)

end BitsOfStock
